import Mathlib

/-!
Verification of the wire codecs and request pipeline of the
jupiter-swap-api-client repository (Rust). The definitions below are a
shallow embedding of the Rust sources: serde-derived (de)serializers are
spelled out as explicit functions over a `Json` value type, machine
integers are `Nat`/`Int` with explicit range checks where the Rust type
enforces a width, and fallible operations return `Option`/`Except`.
-/

/-- Shallow embedding of JSON wire values. Numbers are modelled as
integers: every numeric field of this API is an integer type on the Rust
side (u8..u64, i16), apart from `time_taken`/`max_penalty_bps` (f64),
which this embedding models at integer precision. -/
inductive Json where
  | str (s : String)
  | num (n : Int)
  | bool (b : Bool)
  | null
  | arr (elems : List Json)
  | obj (fields : List (String × Json))

/-- First binding of `key` in a JSON object's field list (serde reads each
struct field once; objects produced by the service bind each key once). -/
def jsonLookup (fields : List (String × Json)) (key : String) : Option Json :=
  match fields with
  | [] => none
  | (k, v) :: rest => if k = key then some v else jsonLookup rest key

/-! ## Decimal-string codec

`serde_helpers/field_as_string.rs` is declared in `serde_helpers/mod.rs`
but its body is not under `src/`; the functions below model it from the
spec (§3 "Amount ... Wire form: decimal string", §4.1
`encode_amount`/`decode_amount`): serialization is Rust's `Display` for
unsigned integers, deserialization is `u64::from_str` (decimal digits
with an optional leading `+`, failing on overflow). -/

/-- The decimal digit character for `d < 10`. -/
def decDigitChar (d : Nat) : Char := Char.ofNat (48 + d)

/-- Digit-accumulator loop; `fuel` bounds the number of divisions by 10
(structural recursion on fuel keeps it kernel-evaluable; `n + 1` is
always enough fuel). -/
def natToDecimalAux (fuel : Nat) (n : Nat) (acc : List Char) : List Char :=
  match fuel with
  | 0 => acc
  | fuel + 1 =>
    if n < 10 then decDigitChar n :: acc
    else natToDecimalAux fuel (n / 10) (decDigitChar (n % 10) :: acc)

/-- Modelled from the spec: `encode_amount`, i.e. `format!("{}", x)` —
standard decimal notation of an unsigned integer. -/
def natToDecimal (n : Nat) : String := String.mk (natToDecimalAux (n + 1) n [])

def isDecDigit (c : Char) : Bool := 48 ≤ c.toNat && c.toNat ≤ 57

def decDigitVal (c : Char) : Nat := c.toNat - 48

def parseDecimalDigits (cs : List Char) : Option Nat :=
  if cs ≠ [] ∧ cs.all isDecDigit then
    some (cs.foldl (fun a c => a * 10 + decDigitVal c) 0)
  else none

/-- Drop the optional leading `+` accepted by Rust's integer `from_str`. -/
def stripPlus (cs : List Char) : List Char :=
  match cs with
  | c :: rest => if c = '+' then rest else c :: rest
  | [] => []

/-- Modelled from the spec: `decode_amount`, i.e. `u64::from_str` — an
optional leading `+`, then one or more decimal digits, value below 2^64. -/
def parseU64String (s : String) : Option Nat :=
  match parseDecimalDigits (stripPlus s.toList) with
  | some n => if n < 18446744073709551616 then some n else none
  | none => none

/-! ## Base64 codec (standard alphabet, padded)

Embeds `base64::engine::general_purpose::STANDARD` as used by
`serde_helpers/field_as_base64.rs` and `swap.rs`'s
`base64_serialize_deserialize`: 3-byte groups become 4 sextet characters,
the final group is padded with `=`, and decoding rejects non-alphabet
characters, misplaced padding and non-zero trailing bits. Bytes are `Nat`
values below 256. -/

def base64Chars : List Char :=
  "ABCDEFGHIJKLMNOPQRSTUVWXYZabcdefghijklmnopqrstuvwxyz0123456789+/".toList

def b64Char (n : Nat) : Char := base64Chars.getD n 'A'

def b64Index (c : Char) : Option Nat := base64Chars.indexOf? c

def b64EncodeGroups : List Nat → List Char
  | [] => []
  | [b0] => [b64Char (b0 / 4), b64Char (b0 % 4 * 16), '=', '=']
  | [b0, b1] =>
    [b64Char (b0 / 4), b64Char (b0 % 4 * 16 + b1 / 16), b64Char (b1 % 16 * 4), '=']
  | b0 :: b1 :: b2 :: rest =>
    b64Char (b0 / 4) :: b64Char (b0 % 4 * 16 + b1 / 16) ::
      b64Char (b1 % 16 * 4 + b2 / 64) :: b64Char (b2 % 64) :: b64EncodeGroups rest

/-- `STANDARD.encode`: total on byte vectors. -/
def base64Encode (bs : List Nat) : String := String.mk (b64EncodeGroups bs)

def b64DecodeGroups : List Char → Option (List Nat)
  | [] => some []
  | c0 :: c1 :: c2 :: c3 :: rest =>
    if rest.isEmpty then
      if c2 = '=' ∧ c3 = '=' then
        match b64Index c0, b64Index c1 with
        | some n0, some n1 =>
          if n1 % 16 = 0 then some [n0 * 4 + n1 / 16] else none
        | _, _ => none
      else if c3 = '=' then
        match b64Index c0, b64Index c1, b64Index c2 with
        | some n0, some n1, some n2 =>
          if n2 % 4 = 0 then some [n0 * 4 + n1 / 16, n1 % 16 * 16 + n2 / 4] else none
        | _, _, _ => none
      else
        match b64Index c0, b64Index c1, b64Index c2, b64Index c3 with
        | some n0, some n1, some n2, some n3 =>
          some [n0 * 4 + n1 / 16, n1 % 16 * 16 + n2 / 4, n2 % 4 * 64 + n3]
        | _, _, _, _ => none
    else
      match b64Index c0, b64Index c1, b64Index c2, b64Index c3, b64DecodeGroups rest with
      | some n0, some n1, some n2, some n3, some tail =>
        some ((n0 * 4 + n1 / 16) :: (n1 % 16 * 16 + n2 / 4) :: (n2 % 4 * 64 + n3) :: tail)
      | _, _, _, _, _ => none
  | _ => none

/-- `STANDARD.decode`. -/
def base64Decode (s : String) : Option (List Nat) := b64DecodeGroups s.toList

/-! ## Base58 codec for account addresses

`solana_sdk::pubkey::Pubkey` is a 32-byte account address displayed and
parsed as bs58. A pubkey is modelled as the 256-bit big-endian value of
its 32 bytes (together with the fixed length 32 this determines the byte
array). -/

def base58Chars : List Char :=
  "123456789ABCDEFGHJKLMNPQRSTUVWXYZabcdefghijkmnopqrstuvwxyz".toList

def b58Index (c : Char) : Option Nat := base58Chars.indexOf? c

def b58Char (n : Nat) : Char := base58Chars.getD n '1'

def b58ValueAux (cs : List Char) (acc : Nat) : Option Nat :=
  match cs with
  | [] => some acc
  | c :: rest =>
    match b58Index c with
    | some d => b58ValueAux rest (acc * 58 + d)
    | none => none

def countLeadingOnes : List Char → Nat
  | [] => 0
  | c :: rest => if c = '1' then countLeadingOnes rest + 1 else 0

/-- Byte-length loop; `fuel` bounds the number of divisions by 256. -/
def natBytesLenAux (fuel : Nat) (n : Nat) : Nat :=
  match fuel with
  | 0 => 0
  | fuel + 1 => if n = 0 then 0 else natBytesLenAux fuel (n / 256) + 1

/-- Number of bytes in the minimal big-endian representation of `n`. -/
def natBytesLen (n : Nat) : Nat := natBytesLenAux (n + 1) n

/-- `Pubkey::from_str`: reject strings longer than 44 characters, bs58
decode (leading `1` characters are leading zero bytes), require exactly
32 bytes. -/
def parsePubkey (s : String) : Option Nat :=
  if s.length > 44 then none
  else
    match b58ValueAux s.toList 0 with
    | some v => if countLeadingOnes s.toList + natBytesLen v = 32 then some v else none
    | none => none

/-- Base-58 digit loop; `fuel` bounds the number of divisions by 58. -/
def natToB58Aux (fuel : Nat) (n : Nat) (acc : List Char) : List Char :=
  match fuel with
  | 0 => acc
  | fuel + 1 => if n = 0 then acc else natToB58Aux fuel (n / 58) (b58Char (n % 58) :: acc)

/-- `Pubkey`'s `Display`: bs58 encoding of the 32 bytes — one `1` per
leading zero byte, then the base-58 digits of the value. -/
def pubkeyToBase58 (v : Nat) : String :=
  String.mk (List.replicate (32 - natBytesLen v) '1' ++ natToB58Aux (v + 1) v [])

/-! ## Shared JSON scalar deserializers (serde semantics) -/

def deserializeBool : Json → Option Bool
  | .bool b => some b
  | _ => none

/-- serde u64 from a JSON number: integral and in range. -/
def deserializeU64Num : Json → Option Nat
  | .num n => if 0 ≤ n ∧ n < (18446744073709551616 : Int) then some n.toNat else none
  | _ => none

def deserializeU32Num : Json → Option Nat
  | .num n => if 0 ≤ n ∧ n < (4294967296 : Int) then some n.toNat else none
  | _ => none

def deserializeU16Num : Json → Option Nat
  | .num n => if 0 ≤ n ∧ n < (65536 : Int) then some n.toNat else none
  | _ => none

def deserializeU8Num : Json → Option Nat
  | .num n => if 0 ≤ n ∧ n < (256 : Int) then some n.toNat else none
  | _ => none

def deserializeI16Num : Json → Option Int
  | .num n => if -(32768 : Int) ≤ n ∧ n < (32768 : Int) then some n else none
  | _ => none

def deserializeString : Json → Option String
  | .str s => some s
  | _ => none

/-- A `#[serde(with = "field_as_string")]` `Pubkey` field. -/
def deserializePubkeyString (j : Json) : Option Nat :=
  match j with
  | .str s => parsePubkey s
  | _ => none

/-- A `#[serde(with = "field_as_string")]` `u64` field. -/
def deserializeU64String (j : Json) : Option Nat :=
  match j with
  | .str s => parseU64String s
  | _ => none

/-- An `Option<bool>` struct field in serde: absent or null is `None`. -/
def deserializeOptBoolField (fields : List (String × Json)) (key : String) :
    Option (Option Bool) :=
  match jsonLookup fields key with
  | none => some none
  | some .null => some none
  | some v => (deserializeBool v).map some

/-- A required serde struct field: look the key up, then parse with the
field's deserializer; missing key or parse failure is an error. -/
def reqField (fields : List (String × Json)) (key : String)
    (p : Json → Option α) : Option α :=
  (jsonLookup fields key).bind p

/-- A `#[serde(with = "field_as_base64")]`-style field (also swap.rs's
`base64_serialize_deserialize`): a string, then `STANDARD.decode`. -/
def fieldAsBase64 (j : Json) : Option (List Nat) :=
  (deserializeString j).bind base64Decode

/-! ## HTTP status classification and request pipeline (lib.rs) -/

structure HttpResponse where
  status : Nat
  body : String
deriving DecidableEq

/-- `reqwest::StatusCode::is_success()`: the 2xx range. -/
def statusIsSuccess (s : Nat) : Bool := 200 ≤ s && s ≤ 299

/-- `ClientError` (lib.rs): `RequestFailed { status, body }` or
`DeserializationError(reqwest::Error)` (the reqwest error is modelled by
its message). -/
inductive ClientError where
  | requestFailed (status : Nat) (body : String)
  | deserializationError (msg : String)
deriving DecidableEq

/-- `check_is_success` (lib.rs): a non-2xx status becomes `RequestFailed`
carrying that status and the response body text. -/
def check_is_success (r : HttpResponse) : Except ClientError HttpResponse :=
  if statusIsSuccess r.status then .ok r
  else .error (.requestFailed r.status r.body)

/-- `check_status_code_and_deserialize` (lib.rs): status check first, then
JSON deserialization of the body (the `T: DeserializeOwned` parameter is
abstracted as `deser`); a parse failure becomes `DeserializationError`. -/
def check_status_code_and_deserialize (deser : String → Option α) (r : HttpResponse) :
    Except ClientError α :=
  match check_is_success r with
  | .error e => .error e
  | .ok r =>
    match deser r.body with
    | some v => .ok v
    | none => .error (.deserializationError r.body)

/-- One transport exchange: an HTTP response, or a connection-level
failure, which `.send().await?` converts through `#[from] reqwest::Error`
into the `DeserializationError` variant of `ClientError`. -/
inductive TransportResult where
  | response (r : HttpResponse)
  | transportFailed (msg : String)

def performCall (deser : String → Option α) : TransportResult → Except ClientError α
  | .response r => check_status_code_and_deserialize deser r
  | .transportFailed msg => .error (.deserializationError msg)

/-- `JupiterSwapApiClient::quote` (lib.rs): builds one GET and sends it
exactly once. The transport is a trace of exchanges indexed by attempt;
the second component counts transport calls made. -/
def quoteCall (deser : String → Option α) (transport : Nat → TransportResult) :
    Except ClientError α × Nat :=
  (performCall deser (transport 0), 1)

/-- `JupiterSwapApiClient::swap` (lib.rs): builds one POST and sends it
exactly once. -/
def swapCall (deser : String → Option α) (transport : Nat → TransportResult) :
    Except ClientError α × Nat :=
  (performCall deser (transport 0), 1)

/-- `JupiterSwapApiClient::swap_instructions` (lib.rs): one POST, sent
once, deserialized as the internal response and converted via `Into`. -/
def swapInstructionsCall (deser : String → Option α) (conv : α → β)
    (transport : Nat → TransportResult) : Except ClientError β × Nat :=
  ((performCall deser (transport 0)).map conv, 1)

/-- Modelled from the spec: the opt-in `retry_quote` variant of the quote
operation is not under `src/` (§9 notes only some revisions carry it);
this follows §4.5/§8: starting at attempt index `i` with `remaining`
attempts allowed, a success short-circuits immediately, a failure on the
last attempt is returned verbatim, and otherwise the fixed `delay` is
waited out and the call retried. Result: (outcome, attempts performed,
total delay waited between attempts). -/
def retryQuoteFrom (call : Nat → Except ClientError α) (delay : Nat) :
    Nat → Nat → Except ClientError α × Nat × Nat
  | _, 0 => (.error (.deserializationError "no attempts"), 0, 0)
  | i, 1 => (call i, 1, 0)
  | i, r + 2 =>
    match call i with
    | .ok v => (.ok v, 1, 0)
    | .error _ =>
      let next := retryQuoteFrom call delay (i + 1) (r + 1)
      (next.1, next.2.1 + 1, next.2.2 + delay)

/-- Modelled from the spec: `retry_quote` — up to `maxAttempts` attempts
with a fixed `delay` between attempts. -/
def retry_quote (call : Nat → Except ClientError α) (maxAttempts delay : Nat) :
    Except ClientError α × Nat × Nat :=
  retryQuoteFrom call delay 0 maxAttempts

/-! ## PrioritizationFeeLamports (transaction_config.rs) -/

/-- `PriorityLevel` (transaction_config.rs). -/
inductive PriorityLevel where
  | medium
  | high
  | veryHigh
deriving DecidableEq

/-- The camelCase serde rename of each `PriorityLevel` variant. -/
def PriorityLevel.wireName : PriorityLevel → String
  | .medium => "medium"
  | .high => "high"
  | .veryHigh => "veryHigh"

def deserializePriorityLevel : Json → Option PriorityLevel
  | .str s =>
    if s = "medium" then some .medium
    else if s = "high" then some .high
    else if s = "veryHigh" then some .veryHigh
    else none
  | .obj [(k, Json.null)] =>
    if k = "medium" then some .medium
    else if k = "high" then some .high
    else if k = "veryHigh" then some .veryHigh
    else none
  | _ => none

/-- `PrioritizationFeeLamports` (transaction_config.rs). Payload widths:
`AutoMultiplier` is u32, the lamport payloads are u64. -/
inductive PrioritizationFeeLamports where
  | autoMultiplier (m : Nat)
  | jitoTipLamports (lamports : Nat)
  | priorityLevelWithMaxLamports (priorityLevel : PriorityLevel) (maxLamports : Nat)
      (global : Bool)
  | auto
  | lamports (lamports : Nat)
  | disabled
deriving DecidableEq

/-- The Rust payload ranges of each variant (u32 / u64 fields). -/
def PrioritizationFeeLamports.wf : PrioritizationFeeLamports → Prop
  | .autoMultiplier m => m < 2 ^ 32
  | .jitoTipLamports l => l < 2 ^ 64
  | .priorityLevelWithMaxLamports _ ml _ => ml < 2 ^ 64
  | .auto => True
  | .lamports l => l < 2 ^ 64
  | .disabled => True

/-- `impl Serialize for PrioritizationFeeLamports` (transaction_config.rs):
tagged single-key objects for the three named variants, the sentinel
strings "auto"/"disabled", and a bare u64 for `Lamports`. -/
def PrioritizationFeeLamports.serialize : PrioritizationFeeLamports → Json
  | .autoMultiplier m => .obj [("autoMultiplier", .num m)]
  | .jitoTipLamports l => .obj [("jitoTipLamports", .num l)]
  | .auto => .str "auto"
  | .lamports l => .num l
  | .disabled => .str "disabled"
  | .priorityLevelWithMaxLamports pl ml g =>
    .obj [("priorityLevelWithMaxLamports",
      .obj [("priorityLevel", .str pl.wireName), ("maxLamports", .num ml),
        ("global", .bool g)])]

/-- The `auto` deserialize helper fn (transaction_config.rs): an
externally-tagged one-unit-variant enum, so serde accepts the variant
name as a bare string or as a single-entry map whose value is null
(`unit_variant` on a buffered Content accepts only a unit payload). -/
def autoHelper : Json → Option Unit
  | .str s => if s = "auto" then some () else none
  | .obj [(k, Json.null)] => if k = "auto" then some () else none
  | _ => none

/-- The `disabled` deserialize helper fn (transaction_config.rs): same
shape acceptance as the `auto` helper, for the name "disabled". -/
def disabledHelper : Json → Option Unit
  | .str s => if s = "disabled" then some () else none
  | .obj [(k, Json.null)] => if k = "disabled" then some () else none
  | _ => none

/-- The `PriorityLevelWithMaxLamports` struct content: `priority_level`
and `max_lamports` required, `global` has `#[serde(default)]`. -/
def deserializePLWML : Json → Option PrioritizationFeeLamports
  | .obj fields => do
    let pl ← reqField fields "priorityLevel" deserializePriorityLevel
    let ml ← reqField fields "maxLamports" deserializeU64Num
    let g ←
      match jsonLookup fields "global" with
      | none => some false
      | some v => deserializeBool v
    some (.priorityLevelWithMaxLamports pl ml g)
  | _ => none

/-- The externally-tagged head of the derived `Deserialize`: a single-key
map whose key is one of the three tagged variant names (serde tries these
before any `#[serde(untagged)]` variant). -/
def PrioritizationFeeLamports.deserializeTagged : Json → Option PrioritizationFeeLamports
  | .obj [(k, v)] =>
    if k = "autoMultiplier" then (deserializeU32Num v).map .autoMultiplier
    else if k = "jitoTipLamports" then (deserializeU64Num v).map .jitoTipLamports
    else if k = "priorityLevelWithMaxLamports" then deserializePLWML v
    else none
  | _ => none

/-- The derived `Deserialize` for `PrioritizationFeeLamports`: the tagged
variants first, then the untagged tail in declaration order — `Auto`
(via the `auto` helper), bare-number `Lamports`, `Disabled` (via the
`disabled` helper). -/
def PrioritizationFeeLamports.deserialize (j : Json) :
    Option PrioritizationFeeLamports :=
  PrioritizationFeeLamports.deserializeTagged j
    <|> (autoHelper j).map (fun _ => .auto)
    <|> (deserializeU64Num j).map .lamports
    <|> (disabledHelper j).map (fun _ => .disabled)

/-- Modelled from the spec (§4.2, for refinement comparison only): decode
by shape inspection in the spec's fixed precedence order — (1) exact
sentinel-string match, (2) bare-scalar match, (3) single-key-object match
against each known key in declaration order; the first match wins. -/
def specPrecedenceDecode (j : Json) : Option PrioritizationFeeLamports :=
  match j with
  | .str s =>
    if s = "auto" then some .auto
    else if s = "disabled" then some .disabled
    else none
  | .num n => if 0 ≤ n ∧ n < (18446744073709551616 : Int) then some (.lamports n.toNat) else none
  | other => PrioritizationFeeLamports.deserializeTagged other

/-! ## TransactionConfig (transaction_config.rs) -/

/-- `ComputeUnitPriceMicroLamports` (transaction_config.rs). -/
inductive ComputeUnitPriceMicroLamports where
  | microLamports (n : Nat)
  | auto
deriving DecidableEq

/-- `DynamicSlippageSettings` (transaction_config.rs); bps fields are u16. -/
structure DynamicSlippageSettings where
  min_bps : Option Nat
  max_bps : Option Nat
deriving DecidableEq

/-- `solana_account_decoder::UiAccount` is external to this repository;
modelled as its raw JSON payload. -/
structure UiAccount where
  raw : Json

/-- `KeyedUiAccount` (transaction_config.rs). -/
structure KeyedUiAccount where
  pubkey : String
  ui_account : UiAccount
  params : Option Json

/-- `TransactionConfig` (transaction_config.rs). Pubkey-valued fields are
modelled as the pubkey's 256-bit value. -/
structure TransactionConfig where
  wrap_and_unwrap_sol : Bool
  allow_optimized_wrapped_sol_token_account : Bool
  fee_account : Option Nat
  destination_token_account : Option Nat
  tracking_account : Option Nat
  compute_unit_price_micro_lamports : Option ComputeUnitPriceMicroLamports
  prioritization_fee_lamports : Option PrioritizationFeeLamports
  dynamic_compute_unit_limit : Bool
  as_legacy_transaction : Bool
  use_shared_accounts : Option Bool
  use_token_ledger : Bool
  skip_user_accounts_rpc_calls : Bool
  keyed_ui_accounts : Option (List KeyedUiAccount)
  program_authority_id : Option Nat
  dynamic_slippage : Option DynamicSlippageSettings
  blockhash_slots_to_expiry : Option Nat
  correct_last_valid_block_height : Bool

/-- `impl Default for TransactionConfig` (transaction_config.rs). -/
def TransactionConfig.default : TransactionConfig where
  wrap_and_unwrap_sol := true
  allow_optimized_wrapped_sol_token_account := false
  fee_account := none
  destination_token_account := none
  tracking_account := none
  compute_unit_price_micro_lamports := none
  prioritization_fee_lamports := none
  as_legacy_transaction := false
  use_shared_accounts := none
  use_token_ledger := false
  dynamic_compute_unit_limit := false
  skip_user_accounts_rpc_calls := false
  keyed_ui_accounts := none
  program_authority_id := none
  dynamic_slippage := none
  blockhash_slots_to_expiry := none
  correct_last_valid_block_height := false

/-- An `Option<T>` struct field in serde: absent or null is `None`,
otherwise the value must parse. -/
def deserializeOptField (fields : List (String × Json)) (key : String)
    (p : Json → Option α) : Option (Option α) :=
  match jsonLookup fields key with
  | none => some none
  | some .null => some none
  | some v => (p v).map some

/-! ## rust_decimal::Decimal fields

`rust_decimal::Decimal` is a sign, an integer mantissa and a decimal
scale; its serde deserializer accepts a decimal string or a bare number.
(The 96-bit mantissa cap is not modelled; no claim depends on it.) -/

structure DecimalValue where
  negative : Bool
  mantissa : Nat
  scale : Nat
deriving DecidableEq

/-- `Decimal::from_str`: optional sign, integer digits, optional point
and fraction digits, at least one digit in total. -/
def parseDecimalString (s : String) : Option DecimalValue :=
  let signed :=
    match s.toList with
    | '-' :: rest => (true, rest)
    | '+' :: rest => (false, rest)
    | cs => (false, cs)
  let cs := signed.2
  let intPart := cs.takeWhile (fun c => c ≠ '.')
  let rest := cs.drop intPart.length
  let fracPart : Option (List Char) :=
    match rest with
    | [] => some []
    | '.' :: f => some f
    | _ => none
  match fracPart with
  | none => none
  | some f =>
    if (intPart ++ f) ≠ [] ∧ intPart.all isDecDigit ∧ f.all isDecDigit then
      some ⟨signed.1,
        (intPart ++ f).foldl (fun a c => a * 10 + decDigitVal c) 0, f.length⟩
    else none

def deserializeDecimal : Json → Option DecimalValue
  | .str s => parseDecimalString s
  | .num n => some ⟨n < 0, n.natAbs, 0⟩
  | _ => none

/-! ## Swap responses (swap.rs of both jupiter crates) -/

/-- `PrioritizationType` (jupiter-swap-api-client/src/swap.rs). -/
inductive PrioritizationType where
  | jito (lamports : Nat)
  | computeBudget (microLamports : Nat) (estimatedMicroLamports : Option Nat)
deriving DecidableEq

/-- Derived `Deserialize` for `PrioritizationType`: externally tagged,
camelCase variant and field names. -/
def PrioritizationType.deserialize : Json → Option PrioritizationType
  | .obj [(k, v)] =>
    if k = "jito" then
      match v with
      | .obj fields => do
        let l ← reqField fields "lamports" deserializeU64Num
        some (.jito l)
      | _ => none
    else if k = "computeBudget" then
      match v with
      | .obj fields => do
        let m ← reqField fields "microLamports" deserializeU64Num
        let est ← deserializeOptField fields "estimatedMicroLamports" deserializeU64Num
        some (.computeBudget m est)
      | _ => none
    else none
  | _ => none

/-- `DynamicSlippageReport` (jupiter-swap-api-client/src/swap.rs). -/
structure DynamicSlippageReport where
  slippage_bps : Nat
  other_amount : Option Nat
  simulated_incurred_slippage_bps : Option Int
  amplification_ratio : Option DecimalValue
deriving DecidableEq

def DynamicSlippageReport.deserialize : Json → Option DynamicSlippageReport
  | .obj fields => do
    let s ← reqField fields "slippageBps" deserializeU16Num
    let oa ← deserializeOptField fields "otherAmount" deserializeU64Num
    let sis ← deserializeOptField fields "simulatedIncurredSlippageBps" deserializeI16Num
    let ar ← deserializeOptField fields "amplificationRatio" deserializeDecimal
    some ⟨s, oa, sis, ar⟩
  | _ => none

/-- `UiSimulationError` (jupiter-swap-api-client/src/swap.rs). -/
structure UiSimulationError where
  error_code : String
  error : String
deriving DecidableEq

def UiSimulationError.deserialize : Json → Option UiSimulationError
  | .obj fields => do
    let ec ← reqField fields "errorCode" deserializeString
    let e ← reqField fields "error" deserializeString
    some ⟨ec, e⟩
  | _ => none

/-- `SwapResponse` (jupiter-swap-api-client/src/swap.rs): beyond the
transaction and block height it requires `prioritization_fee_lamports`
(u64) and `compute_unit_limit` (u32) — neither carries `#[serde(default)]`. -/
structure SwapResponse where
  swap_transaction : List Nat
  last_valid_block_height : Nat
  prioritization_fee_lamports : Nat
  compute_unit_limit : Nat
  prioritization_type : Option PrioritizationType
  dynamic_slippage_report : Option DynamicSlippageReport
  simulation_error : Option UiSimulationError
deriving DecidableEq

def SwapResponse.deserialize : Json → Option SwapResponse
  | .obj fields => do
    let tx ← reqField fields "swapTransaction" fieldAsBase64
    let h ← reqField fields "lastValidBlockHeight" deserializeU64Num
    let p ← reqField fields "prioritizationFeeLamports" deserializeU64Num
    let c ← reqField fields "computeUnitLimit" deserializeU32Num
    let pt ← deserializeOptField fields "prioritizationType" PrioritizationType.deserialize
    let dsr ← deserializeOptField fields "dynamicSlippageReport" DynamicSlippageReport.deserialize
    let se ← deserializeOptField fields "simulationError" UiSimulationError.deserialize
    some ⟨tx, h, p, c, pt, dsr, se⟩
  | _ => none

/-- `SwapResponse` (jupiter-swap-api/src/swap.rs): only the base64
transaction and the last valid block height. -/
structure ApiSwapResponse where
  swap_transaction : List Nat
  last_valid_block_height : Nat
deriving DecidableEq

def ApiSwapResponse.deserialize : Json → Option ApiSwapResponse
  | .obj fields => do
    let tx ← reqField fields "swapTransaction" fieldAsBase64
    let h ← reqField fields "lastValidBlockHeight" deserializeU64Num
    some ⟨tx, h⟩
  | _ => none

/-! ## Account metas of swap-instructions responses -/

/-- `solana_sdk::instruction::AccountMeta`, the domain type both clients
convert into. -/
structure AccountMeta where
  pubkey : Nat
  is_signer : Bool
  is_writable : Bool
deriving DecidableEq

/-- `AccountMetaInternal` (jupiter-swap-api-client/src/swap.rs): pubkey
via `field_as_string`; `is_signer` and `is_writable` are plain required
bools — no `#[serde(default)]`. -/
structure AccountMetaInternal where
  pubkey : Nat
  is_signer : Bool
  is_writable : Bool
deriving DecidableEq

def AccountMetaInternal.deserialize : Json → Option AccountMetaInternal
  | .obj fields => do
    let pk ← reqField fields "pubkey" deserializePubkeyString
    let s ← reqField fields "isSigner" deserializeBool
    let w ← reqField fields "isWritable" deserializeBool
    some ⟨pk, s, w⟩
  | _ => none

/-- `From<AccountMetaInternal> for AccountMeta` (jupiter client). -/
def AccountMetaInternal.toAccountMeta (a : AccountMetaInternal) : AccountMeta :=
  ⟨a.pubkey, a.is_signer, a.is_writable⟩

/-- `AccountMeta` (autobahn-swap-api-client/src/swap.rs): pubkey kept as
a plain string, flags are `Option<bool>`. -/
structure AutobahnAccountMeta where
  pubkey : String
  is_signer : Option Bool
  is_writable : Option Bool
deriving DecidableEq

def AutobahnAccountMeta.deserialize : Json → Option AutobahnAccountMeta
  | .obj fields => do
    let pk ← reqField fields "pubkey" deserializeString
    let s ← deserializeOptBoolField fields "isSigner"
    let w ← deserializeOptBoolField fields "isWritable"
    some ⟨pk, s, w⟩
  | _ => none

/-- `TryFrom<&AccountMeta> for solana_sdk::instruction::AccountMeta`
(autobahn-swap-api-client/src/swap.rs): parse the pubkey and
`unwrap_or(false)` on both flags. -/
def AutobahnAccountMeta.tryIntoAccountMeta (m : AutobahnAccountMeta) : Option AccountMeta :=
  (parsePubkey m.pubkey).map fun pk =>
    ⟨pk, m.is_signer.getD false, m.is_writable.getD false⟩

/-- The wire→domain path for one account meta of an autobahn
swap-instructions response: deserialize, then convert. -/
def autobahnAccountMetaToDomain (j : Json) : Option AccountMeta :=
  (AutobahnAccountMeta.deserialize j).bind AutobahnAccountMeta.tryIntoAccountMeta

/-! ## Quote request and its outgoing query (quote.rs, lib.rs) -/

/-- `SwapMode` (quote.rs): no serde rename, so the wire names are the
variant names themselves. -/
inductive SwapMode where
  | exactIn
  | exactOut
deriving DecidableEq

def SwapMode.wireName : SwapMode → String
  | .exactIn => "ExactIn"
  | .exactOut => "ExactOut"

def SwapMode.deserialize : Json → Option SwapMode
  | .str s =>
    if s = "ExactIn" then some .exactIn
    else if s = "ExactOut" then some .exactOut
    else none
  | _ => none

/-- `ComputeUnitScore` (quote.rs); `max_penalty_bps` is f64, modelled as
an exact rational. -/
structure ComputeUnitScore where
  max_penalty_bps : Option Rat

/-- `QuoteRequest` (quote.rs). Pubkeys are modelled by value, `Dexes` is
a comma-delimited string as in the source, and the `quote_args` hash map
is modelled as an association list. -/
structure QuoteRequest where
  input_mint : Nat
  output_mint : Nat
  amount : Nat
  swap_mode : Option SwapMode
  slippage_bps : Nat
  auto_slippage : Option Bool
  max_auto_slippage_bps : Option Nat
  compute_auto_slippage : Bool
  auto_slippage_collision_usd_value : Option Nat
  minimize_slippage : Option Bool
  platform_fee_bps : Option Nat
  dexes : Option String
  excluded_dexes : Option String
  only_direct_routes : Option Bool
  as_legacy_transaction : Option Bool
  restrict_intermediate_tokens : Option Bool
  max_accounts : Option Nat
  quote_type : Option String
  quote_args : Option (List (String × String))
  prefer_liquid_dexes : Option Bool
  compute_unit_score : Option ComputeUnitScore
  routing_constraints : Option String
  token_category_based_intermediate_tokens : Option Bool

/-- `impl Default for QuoteRequest` (quote.rs): zero addresses and
amount, 50 bps slippage, everything else unset. -/
def QuoteRequest.default : QuoteRequest where
  input_mint := 0
  output_mint := 0
  amount := 0
  swap_mode := none
  slippage_bps := 50
  auto_slippage := none
  max_auto_slippage_bps := none
  compute_auto_slippage := false
  auto_slippage_collision_usd_value := none
  minimize_slippage := none
  platform_fee_bps := none
  dexes := none
  excluded_dexes := none
  only_direct_routes := none
  as_legacy_transaction := none
  restrict_intermediate_tokens := none
  max_accounts := none
  quote_type := none
  quote_args := none
  prefer_liquid_dexes := none
  compute_unit_score := none
  routing_constraints := none
  token_category_based_intermediate_tokens := none

/-- `InternalQuoteRequest` (quote.rs): the serialized form of a quote
request — note it has no `quote_args`, `compute_unit_score`,
`routing_constraints` or `token_category_based_intermediate_tokens`. -/
structure InternalQuoteRequest where
  input_mint : Nat
  output_mint : Nat
  amount : Nat
  swap_mode : Option SwapMode
  slippage_bps : Nat
  auto_slippage : Option Bool
  max_auto_slippage_bps : Option Nat
  compute_auto_slippage : Bool
  auto_slippage_collision_usd_value : Option Nat
  minimize_slippage : Option Bool
  platform_fee_bps : Option Nat
  dexes : Option String
  excluded_dexes : Option String
  only_direct_routes : Option Bool
  as_legacy_transaction : Option Bool
  restrict_intermediate_tokens : Option Bool
  max_accounts : Option Nat
  quote_type : Option String
  prefer_liquid_dexes : Option Bool

/-- `From<QuoteRequest> for InternalQuoteRequest` (quote.rs). -/
def InternalQuoteRequest.fromQuoteRequest (r : QuoteRequest) : InternalQuoteRequest where
  input_mint := r.input_mint
  output_mint := r.output_mint
  amount := r.amount
  swap_mode := r.swap_mode
  slippage_bps := r.slippage_bps
  auto_slippage := r.auto_slippage
  max_auto_slippage_bps := r.max_auto_slippage_bps
  compute_auto_slippage := r.compute_auto_slippage
  auto_slippage_collision_usd_value := r.auto_slippage_collision_usd_value
  minimize_slippage := r.minimize_slippage
  platform_fee_bps := r.platform_fee_bps
  dexes := r.dexes
  excluded_dexes := r.excluded_dexes
  only_direct_routes := r.only_direct_routes
  as_legacy_transaction := r.as_legacy_transaction
  restrict_intermediate_tokens := r.restrict_intermediate_tokens
  max_accounts := r.max_accounts
  quote_type := r.quote_type
  prefer_liquid_dexes := r.prefer_liquid_dexes

/-- A skippable query field: `None` optionals produce no pair. -/
def optEntry (key : String) (v : Option String) : List (String × String) :=
  match v with
  | some s => [(key, s)]
  | none => []

def boolString (b : Bool) : String := if b then "true" else "false"

/-- serde_urlencoded serialization of `InternalQuoteRequest` (as used by
`.query(&internal_quote_request)`), in field declaration order with
camelCase keys: pubkeys as base58 strings, string-encoded u64 amounts as
decimal strings, plain numerics as decimals, bools as "true"/"false",
`SwapMode` as its variant name. -/
def InternalQuoteRequest.queryPairs (r : InternalQuoteRequest) : List (String × String) :=
  [("inputMint", pubkeyToBase58 r.input_mint),
    ("outputMint", pubkeyToBase58 r.output_mint),
    ("amount", natToDecimal r.amount)]
  ++ optEntry "swapMode" (r.swap_mode.map SwapMode.wireName)
  ++ [("slippageBps", natToDecimal r.slippage_bps)]
  ++ optEntry "autoSlippage" (r.auto_slippage.map boolString)
  ++ optEntry "maxAutoSlippageBps" (r.max_auto_slippage_bps.map natToDecimal)
  ++ [("computeAutoSlippage", boolString r.compute_auto_slippage)]
  ++ optEntry "autoSlippageCollisionUsdValue"
      (r.auto_slippage_collision_usd_value.map natToDecimal)
  ++ optEntry "minimizeSlippage" (r.minimize_slippage.map boolString)
  ++ optEntry "platformFeeBps" (r.platform_fee_bps.map natToDecimal)
  ++ optEntry "dexes" r.dexes
  ++ optEntry "excludedDexes" r.excluded_dexes
  ++ optEntry "onlyDirectRoutes" (r.only_direct_routes.map boolString)
  ++ optEntry "asLegacyTransaction" (r.as_legacy_transaction.map boolString)
  ++ optEntry "restrictIntermediateTokens" (r.restrict_intermediate_tokens.map boolString)
  ++ optEntry "maxAccounts" (r.max_accounts.map natToDecimal)
  ++ optEntry "quoteType" r.quote_type
  ++ optEntry "preferLiquidDexes" (r.prefer_liquid_dexes.map boolString)

/-- The full outgoing query of `JupiterSwapApiClient::quote` (lib.rs):
`.query(&internal_quote_request)` followed by `.query(&extra_args)`. -/
def quoteQueryPairs (r : QuoteRequest) : List (String × String) :=
  (InternalQuoteRequest.fromQuoteRequest r).queryPairs ++ r.quote_args.getD []

def quoteQueryKeys (r : QuoteRequest) : List String :=
  (quoteQueryPairs r).map Prod.fst

/-! ## Quote response (quote.rs) -/

/-- `SwapInfo` (quote.rs). -/
structure SwapInfo where
  amm_key : Nat
  label : String
  input_mint : Nat
  output_mint : Nat
  in_amount : Nat
  out_amount : Nat
deriving DecidableEq

def SwapInfo.deserialize : Json → Option SwapInfo
  | .obj fields => do
    let a ← reqField fields "ammKey" deserializePubkeyString
    let l ← reqField fields "label" deserializeString
    let i ← reqField fields "inputMint" deserializePubkeyString
    let o ← reqField fields "outputMint" deserializePubkeyString
    let ia ← reqField fields "inAmount" deserializeU64String
    let oa ← reqField fields "outAmount" deserializeU64String
    some ⟨a, l, i, o, ia, oa⟩
  | _ => none

/-- Modelled from the spec: `route_plan_with_metadata.rs` is declared in
lib.rs but not under src/; §3 describes the route plan as an ordered
"sequence of per-hop swap-info records", so a step pairs the `SwapInfo`
of quote.rs with its routed percent share. -/
structure RoutePlanStep where
  swap_info : SwapInfo
  percent : Nat
deriving DecidableEq

def RoutePlanStep.deserialize : Json → Option RoutePlanStep
  | .obj fields => do
    let s ← reqField fields "swapInfo" SwapInfo.deserialize
    let p ← reqField fields "percent" deserializeU8Num
    some ⟨s, p⟩
  | _ => none

def deserializeRoutePlan : Json → Option (List RoutePlanStep)
  | .arr elems => elems.mapM RoutePlanStep.deserialize
  | _ => none

/-- `PlatformFee` (quote.rs). -/
structure PlatformFee where
  amount : Nat
  fee_bps : Nat
deriving DecidableEq

def PlatformFee.deserialize : Json → Option PlatformFee
  | .obj fields => do
    let a ← reqField fields "amount" deserializeU64String
    let f ← reqField fields "feeBps" deserializeU8Num
    some ⟨a, f⟩
  | _ => none

/-- The fields of `QuoteResponse` (quote.rs) other than the two
`#[serde(default)]` metadata fields. -/
structure QuoteResponseCore where
  input_mint : Nat
  in_amount : Nat
  output_mint : Nat
  out_amount : Nat
  other_amount_threshold : Nat
  swap_mode : SwapMode
  slippage_bps : Nat
  computed_auto_slippage : Option Nat
  uses_quote_minimizing_slippage : Option Bool
  platform_fee : Option PlatformFee
  price_impact_pct : DecimalValue
  route_plan : List RoutePlanStep
deriving DecidableEq

def QuoteResponseCore.deserializeFields (fields : List (String × Json)) :
    Option QuoteResponseCore := do
  let i ← reqField fields "inputMint" deserializePubkeyString
  let ia ← reqField fields "inAmount" deserializeU64String
  let o ← reqField fields "outputMint" deserializePubkeyString
  let oa ← reqField fields "outAmount" deserializeU64String
  let ot ← reqField fields "otherAmountThreshold" deserializeU64String
  let sm ← reqField fields "swapMode" SwapMode.deserialize
  let sb ← reqField fields "slippageBps" deserializeU16Num
  let cas ← deserializeOptField fields "computedAutoSlippage" deserializeU16Num
  let uq ← deserializeOptField fields "usesQuoteMinimizingSlippage" deserializeBool
  let pf ← deserializeOptField fields "platformFee" PlatformFee.deserialize
  let pi ← reqField fields "priceImpactPct" deserializeDecimal
  let rp ← reqField fields "routePlan" deserializeRoutePlan
  some ⟨i, ia, o, oa, ot, sm, sb, cas, uq, pf, pi, rp⟩

/-- A `#[serde(default)]` struct field: the default value when absent,
otherwise the value must parse. -/
def deserializeDefaultField (fields : List (String × Json)) (key : String)
    (p : Json → Option α) (d : α) : Option α :=
  match jsonLookup fields key with
  | none => some d
  | some v => p v

/-- An f64 field (`time_taken`), modelled at integer precision. -/
def deserializeF64 : Json → Option Int
  | .num n => some n
  | _ => none

/-- `QuoteResponse` (quote.rs): the core fields plus `context_slot`
(u64, `#[serde(default)]`, so 0 when absent) and `time_taken` (f64,
`#[serde(default)]`, so 0.0 when absent). -/
structure QuoteResponse extends QuoteResponseCore where
  context_slot : Nat
  time_taken : Int
deriving DecidableEq

def QuoteResponse.deserialize : Json → Option QuoteResponse
  | .obj fields => do
    let core ← QuoteResponseCore.deserializeFields fields
    let cs ← deserializeDefaultField fields "contextSlot" deserializeU64Num 0
    let tt ← deserializeDefaultField fields "timeTaken" deserializeF64 0
    some ⟨core, cs, tt⟩
  | _ => none

/-! ## Round-trip facts for the scalar codecs -/

theorem decDigitChar_toNat (d : Nat) (h : d < 10) : (decDigitChar d).toNat = 48 + d := by
  interval_cases d <;> decide

theorem isDecDigit_decDigitChar (d : Nat) (h : d < 10) :
    isDecDigit (decDigitChar d) = true := by
  interval_cases d <;> decide

theorem decDigitVal_decDigitChar (d : Nat) (h : d < 10) :
    decDigitVal (decDigitChar d) = d := by
  interval_cases d <;> decide


theorem natToDecimalAux_eq_append (fuel : Nat) :
    ∀ n acc, natToDecimalAux fuel n acc = natToDecimalAux fuel n [] ++ acc := by
  induction fuel with
  | zero =>
    intro n acc
    simp [natToDecimalAux]
  | succ fuel ih =>
    intro n acc
    by_cases h : n < 10
    · simp [natToDecimalAux, h]
    · rw [natToDecimalAux, if_neg h, natToDecimalAux, if_neg h,
        ih (n / 10) (decDigitChar (n % 10) :: acc),
        ih (n / 10) [decDigitChar (n % 10)], List.append_assoc]
      simp

theorem natToDecimalAux_ne_nil (fuel n : Nat) : natToDecimalAux (fuel + 1) n [] ≠ [] := by
  by_cases h : n < 10
  · simp [natToDecimalAux, h]
  · rw [natToDecimalAux, if_neg h, natToDecimalAux_eq_append]
    simp

theorem natToDecimalAux_all_digits (fuel : Nat) :
    ∀ n, (natToDecimalAux fuel n []).all isDecDigit = true := by
  induction fuel with
  | zero =>
    intro n
    rfl
  | succ fuel ih =>
    intro n
    by_cases h : n < 10
    · simp [natToDecimalAux, h, isDecDigit_decDigitChar n h]
    · rw [natToDecimalAux, if_neg h, natToDecimalAux_eq_append]
      simp only [List.all_append, ih (n / 10), Bool.true_and]
      simp [isDecDigit_decDigitChar (n % 10) (by omega)]

theorem natToDecimalAux_foldl (fuel : Nat) :
    ∀ n, n < 10 ^ fuel →
      (natToDecimalAux fuel n []).foldl (fun a c => a * 10 + decDigitVal c) 0 = n := by
  induction fuel with
  | zero =>
    intro n h
    simp [natToDecimalAux]
    omega
  | succ fuel ih =>
    intro n h
    by_cases hn : n < 10
    · simp [natToDecimalAux, hn, decDigitVal_decDigitChar n hn]
    · have hdiv : n / 10 < 10 ^ fuel := by
        have hlt : n < 10 * 10 ^ fuel := by
          rw [← pow_succ']
          exact h
        exact Nat.div_lt_of_lt_mul hlt
      rw [natToDecimalAux, if_neg hn, natToDecimalAux_eq_append, List.foldl_append,
        ih (n / 10) hdiv]
      simp only [List.foldl_cons, List.foldl_nil,
        decDigitVal_decDigitChar (n % 10) (by omega)]
      omega

theorem isDecDigit_ne_plus (c : Char) (h : isDecDigit c = true) : c ≠ '+' := by
  intro heq
  rw [heq] at h
  exact absurd h (by decide)

theorem parseU64String_natToDecimal (n : Nat) (h : n < 2 ^ 64) :
    parseU64String (natToDecimal n) = some n := by
  have hfuel : n < 10 ^ (n + 1) :=
    (Nat.lt_pow_self (by norm_num) n).trans_le
      (Nat.pow_le_pow_right (by norm_num) (Nat.le_succ n))
  have hlist : (natToDecimal n).toList = natToDecimalAux (n + 1) n [] := rfl
  have hall := natToDecimalAux_all_digits (n + 1) n
  have hfold := natToDecimalAux_foldl (n + 1) n hfuel
  have hne := natToDecimalAux_ne_nil n n
  rw [parseU64String, hlist]
  rcases hcs : natToDecimalAux (n + 1) n [] with _ | ⟨c, rest⟩
  · exact absurd hcs hne
  · rw [hcs] at hall hfold
    have hc : isDecDigit c = true := List.all_eq_true.mp hall c (by simp)
    rw [stripPlus, if_neg (isDecDigit_ne_plus c hc),
      parseDecimalDigits, if_pos ⟨by simp, hall⟩, hfold]
    simp only [if_pos (show n < 18446744073709551616 by omega)]

/-! ## Round-trip facts for the base64 codec -/

theorem b64Index_b64Char : ∀ k, k < 64 → b64Index (b64Char k) = some k := by decide

theorem b64Char_ne_pad : ∀ k, k < 64 → b64Char k ≠ '=' := by decide

theorem b64EncodeGroups_ne_nil : ∀ bs : List Nat, bs ≠ [] → b64EncodeGroups bs ≠ [] := by
  intro bs hbs
  rcases bs with _ | ⟨b0, _ | ⟨b1, _ | ⟨b2, rest⟩⟩⟩ <;> simp [b64EncodeGroups] at hbs ⊢

theorem b64DecodeGroups_encode : ∀ bs : List Nat, (∀ b ∈ bs, b < 256) →
    b64DecodeGroups (b64EncodeGroups bs) = some bs
  | [], _ => rfl
  | [b0], h => by
    have hb0 : b0 < 256 := h b0 (by simp)
    have h0 := b64Index_b64Char (b0 / 4) (by omega)
    have h1 := b64Index_b64Char (b0 % 4 * 16) (by omega)
    rw [b64EncodeGroups, b64DecodeGroups]
    simp only [List.isEmpty_nil, if_true, h0, h1]
    rw [if_pos (show True ∧ True from ⟨trivial, trivial⟩),
      if_pos (show b0 % 4 * 16 % 16 = 0 from by omega)]
    simp only [Option.some.injEq, List.cons.injEq, and_true]
    omega
  | [b0, b1], h => by
    have hb0 : b0 < 256 := h b0 (by simp)
    have hb1 : b1 < 256 := h b1 (by simp)
    have h0 := b64Index_b64Char (b0 / 4) (by omega)
    have h1 := b64Index_b64Char (b0 % 4 * 16 + b1 / 16) (by omega)
    have h2 := b64Index_b64Char (b1 % 16 * 4) (by omega)
    rw [b64EncodeGroups, b64DecodeGroups]
    simp only [List.isEmpty_nil, if_true, h0, h1, h2]
    rw [if_neg (fun hand => b64Char_ne_pad (b1 % 16 * 4) (by omega) hand.1),
      if_pos (show b1 % 16 * 4 % 4 = 0 from by omega)]
    simp only [Option.some.injEq, List.cons.injEq, and_true]
    omega
  | [b0, b1, b2], h => by
    have hb0 : b0 < 256 := h b0 (by simp)
    have hb1 : b1 < 256 := h b1 (by simp)
    have hb2 : b2 < 256 := h b2 (by simp)
    have h0 := b64Index_b64Char (b0 / 4) (by omega)
    have h1 := b64Index_b64Char (b0 % 4 * 16 + b1 / 16) (by omega)
    have h2 := b64Index_b64Char (b1 % 16 * 4 + b2 / 64) (by omega)
    have h3 := b64Index_b64Char (b2 % 64) (by omega)
    show b64DecodeGroups
      [b64Char (b0 / 4), b64Char (b0 % 4 * 16 + b1 / 16),
        b64Char (b1 % 16 * 4 + b2 / 64), b64Char (b2 % 64)] = some [b0, b1, b2]
    rw [b64DecodeGroups]
    simp only [List.isEmpty_nil, if_true, h0, h1, h2, h3]
    rw [if_neg (fun hand => b64Char_ne_pad (b1 % 16 * 4 + b2 / 64) (by omega) hand.1),
      if_neg (b64Char_ne_pad (b2 % 64) (by omega))]
    simp only [Option.some.injEq, List.cons.injEq, and_true]
    omega
  | b0 :: b1 :: b2 :: b3 :: rest, h => by
    have hb0 : b0 < 256 := h b0 (by simp)
    have hb1 : b1 < 256 := h b1 (by simp)
    have hb2 : b2 < 256 := h b2 (by simp)
    have htail : ∀ b ∈ b3 :: rest, b < 256 := fun b hb => h b (by simp at hb ⊢; tauto)
    have h0 := b64Index_b64Char (b0 / 4) (by omega)
    have h1 := b64Index_b64Char (b0 % 4 * 16 + b1 / 16) (by omega)
    have h2 := b64Index_b64Char (b1 % 16 * 4 + b2 / 64) (by omega)
    have h3 := b64Index_b64Char (b2 % 64) (by omega)
    have henc : b64EncodeGroups (b3 :: rest) ≠ [] :=
      b64EncodeGroups_ne_nil (b3 :: rest) (by simp)
    have hih : b64DecodeGroups (b64EncodeGroups (b3 :: rest)) = some (b3 :: rest) :=
      b64DecodeGroups_encode (b3 :: rest) htail
    rcases he : b64EncodeGroups (b3 :: rest) with _ | ⟨y, ys⟩
    · exact absurd he henc
    · rw [he] at hih
      rw [b64EncodeGroups, he, b64DecodeGroups]
      simp only [List.isEmpty_cons, Bool.false_eq_true, if_false, h0, h1, h2, h3, hih]
      simp only [Option.some.injEq, List.cons.injEq, and_true]
      omega

/-! ## General helper lemmas -/

theorem option_some_bind {α β : Type} (a : α) (f : α → Option β) :
    (some a >>= f) = f a := rfl

theorem pair_mem_optEntry {a b k : String} {o : Option String} :
    (a, b) ∈ optEntry k o ↔ a = k ∧ o = some b := by
  cases o <;> simp [optEntry, eq_comm]

theorem retryQuoteFrom_all_fail {α : Type} (call : Nat → Except ClientError α) (delay : Nat)
    (hfail : ∀ i, ∃ e, call i = .error e) :
    ∀ r, 1 ≤ r → ∀ i,
      retryQuoteFrom call delay i r = (call (i + (r - 1)), r, (r - 1) * delay) := by
  intro r
  induction r with
  | zero => intro h; exact absurd h (by omega)
  | succ r ih =>
    intro _ i
    cases r with
    | zero => simp [retryQuoteFrom]
    | succ r' =>
      obtain ⟨e, he⟩ := hfail i
      simp only [retryQuoteFrom, he]
      rw [ih (by omega) (i + 1)]
      have h1 : i + 1 + (r' + 1 - 1) = i + (r' + 1 + 1 - 1) := by omega
      simp only [h1, Nat.add_sub_cancel]
      have h2 : i + 1 + r' = i + (r' + 1) := by omega
      rw [h2, Nat.succ_mul]

/-! ## The claims -/

/-- C1 (counterexample): the claim fails on the jupiter-swap-api-client:
`AccountMetaInternal` requires `is_signer`/`is_writable`, so a wire
account meta with both flags absent (and a valid pubkey) is a
deserialization error, not a default-to-false success. -/
theorem c1_counterexample_jupiter_flags_required :
    AccountMetaInternal.deserialize
      (Json.obj [("pubkey", Json.str "11111111111111111111111111111111")]) = none := by
  decide

/-- C1 (amended): in the autobahn-swap-api-client, an account meta whose
`is_signer` and/or `is_writable` field is absent deserializes
successfully, and converting to the domain `AccountMeta` defaults each
absent flag to false (present flags are kept); in the
jupiter-swap-api-client both flags are required and absence is a decode
error (see the counterexample). -/
theorem c1_autobahn_absent_flags_default_false
    (fields : List (String × Json)) (s : String) (pk : Nat)
    (hpk : jsonLookup fields "pubkey" = some (Json.str s))
    (hparse : parsePubkey s = some pk) :
    (jsonLookup fields "isSigner" = none → jsonLookup fields "isWritable" = none →
      autobahnAccountMetaToDomain (Json.obj fields) = some ⟨pk, false, false⟩)
    ∧ (∀ b, jsonLookup fields "isSigner" = none →
        jsonLookup fields "isWritable" = some (Json.bool b) →
        autobahnAccountMetaToDomain (Json.obj fields) = some ⟨pk, false, b⟩)
    ∧ (∀ b, jsonLookup fields "isSigner" = some (Json.bool b) →
        jsonLookup fields "isWritable" = none →
        autobahnAccountMetaToDomain (Json.obj fields) = some ⟨pk, b, false⟩) := by
  refine ⟨fun h1 h2 => ?_, fun b h1 h2 => ?_, fun b h1 h2 => ?_⟩ <;>
    simp [autobahnAccountMetaToDomain, AutobahnAccountMeta.deserialize, reqField,
      hpk, deserializeString, deserializeOptBoolField, h1, h2, deserializeBool,
      AutobahnAccountMeta.tryIntoAccountMeta, hparse]

/-- C1 (witness): the zero pubkey with both flags absent decodes to the
domain account meta with both flags false. -/
theorem c1_autobahn_absent_flags_default_false_witness :
    autobahnAccountMetaToDomain
      (Json.obj [("pubkey", Json.str "11111111111111111111111111111111")]) =
      some ⟨0, false, false⟩ :=
  (c1_autobahn_absent_flags_default_false
    [("pubkey", Json.str "11111111111111111111111111111111")]
    "11111111111111111111111111111111" 0 rfl (by decide)).1 rfl rfl

/-- C2: for every HTTP response whose status is not in the 2xx success
range, `check_status_code_and_deserialize` returns `RequestFailed` with
exactly that status code and the raw body text, for every deserializer —
in particular it never returns a `DeserializationError`, whether or not
the body is JSON. -/
theorem c2_non_success_status_yields_request_failed
    {α : Type} (deser : String → Option α) (r : HttpResponse)
    (h : statusIsSuccess r.status = false) :
    check_status_code_and_deserialize deser r =
      Except.error (ClientError.requestFailed r.status r.body) := by
  simp [check_status_code_and_deserialize, check_is_success, h]

/-- C2 (witness): a 404 with a non-JSON body and a failing deserializer
yields `RequestFailed 404` with the body verbatim. -/
theorem c2_non_success_status_yields_request_failed_witness :
    check_status_code_and_deserialize (fun _ => (none : Option Nat))
      ⟨404, "<html>not json</html>"⟩ =
      Except.error (ClientError.requestFailed 404 "<html>not json</html>") :=
  c2_non_success_status_yields_request_failed (fun _ => none)
    ⟨404, "<html>not json</html>"⟩ (by decide)

/-- C3: every `PrioritizationFeeLamports` value within its Rust payload
widths (u32/u64) survives a serialize-then-deserialize round trip. -/
theorem c3_prioritization_fee_serialization_roundtrip
    (v : PrioritizationFeeLamports) (h : v.wf) :
    PrioritizationFeeLamports.deserialize v.serialize = some v := by
  cases v with
  | autoMultiplier m =>
    have hm : m < 4294967296 := by
      have hm0 : m < 2 ^ 32 := h
      omega
    have hnum : deserializeU32Num (Json.num m) = some m := by
      rw [deserializeU32Num, if_pos (show (0 : Int) ≤ (m : Int) ∧ (m : Int) < (4294967296 : Int)
        from ⟨Int.natCast_nonneg m, by exact_mod_cast hm⟩), Int.toNat_natCast]
    have htag : PrioritizationFeeLamports.deserializeTagged
        (Json.obj [("autoMultiplier", Json.num m)]) = some (.autoMultiplier m) := by
      rw [PrioritizationFeeLamports.deserializeTagged]
      simp only [reduceIte, hnum, Option.map_some']
    rw [PrioritizationFeeLamports.serialize, PrioritizationFeeLamports.deserialize, htag,
      Option.some_orElse]
  | jitoTipLamports l =>
    have hl : l < 18446744073709551616 := by
      have hl0 : l < 2 ^ 64 := h
      omega
    have hnum : deserializeU64Num (Json.num l) = some l := by
      rw [deserializeU64Num, if_pos (show (0 : Int) ≤ (l : Int) ∧
        (l : Int) < (18446744073709551616 : Int)
        from ⟨Int.natCast_nonneg l, by exact_mod_cast hl⟩), Int.toNat_natCast]
    have htag : PrioritizationFeeLamports.deserializeTagged
        (Json.obj [("jitoTipLamports", Json.num l)]) = some (.jitoTipLamports l) := by
      rw [PrioritizationFeeLamports.deserializeTagged]
      simp only [reduceIte, hnum, Option.map_some']
      rw [if_neg (show ¬("jitoTipLamports" = "autoMultiplier") by decide)]
    rw [PrioritizationFeeLamports.serialize, PrioritizationFeeLamports.deserialize, htag,
      Option.some_orElse]
  | priorityLevelWithMaxLamports pl ml g =>
    have hml : ml < 18446744073709551616 := by
      have hml0 : ml < 2 ^ 64 := h
      omega
    have hnum : deserializeU64Num (Json.num ml) = some ml := by
      rw [deserializeU64Num, if_pos (show (0 : Int) ≤ (ml : Int) ∧
        (ml : Int) < (18446744073709551616 : Int)
        from ⟨Int.natCast_nonneg ml, by exact_mod_cast hml⟩), Int.toNat_natCast]
    have hB : reqField [("priorityLevel", Json.str pl.wireName),
        ("maxLamports", Json.num ml), ("global", Json.bool g)] "maxLamports"
        deserializeU64Num = some ml := by
      show (jsonLookup [("priorityLevel", Json.str pl.wireName),
        ("maxLamports", Json.num ml), ("global", Json.bool g)] "maxLamports").bind
          deserializeU64Num = some ml
      rw [show jsonLookup [("priorityLevel", Json.str pl.wireName),
        ("maxLamports", Json.num ml), ("global", Json.bool g)] "maxLamports" =
          some (Json.num ml) from rfl, Option.some_bind']
      exact hnum
    have hA : reqField [("priorityLevel", Json.str pl.wireName),
        ("maxLamports", Json.num ml), ("global", Json.bool g)] "priorityLevel"
        deserializePriorityLevel = some pl := by
      cases pl <;> rfl
    have hplwml : deserializePLWML
        (Json.obj [("priorityLevel", Json.str pl.wireName), ("maxLamports", Json.num ml),
          ("global", Json.bool g)]) = some (.priorityLevelWithMaxLamports pl ml g) := by
      rw [deserializePLWML, hA, hB]
      simp only [Option.some_bind]
      rw [show jsonLookup [("priorityLevel", Json.str pl.wireName),
        ("maxLamports", Json.num ml), ("global", Json.bool g)] "global" =
          some (Json.bool g) from rfl]
      rfl
    have htag : PrioritizationFeeLamports.deserializeTagged
        (Json.obj [("priorityLevelWithMaxLamports",
          Json.obj [("priorityLevel", Json.str pl.wireName), ("maxLamports", Json.num ml),
            ("global", Json.bool g)])]) = some (.priorityLevelWithMaxLamports pl ml g) := by
      rw [PrioritizationFeeLamports.deserializeTagged]
      simp only [reduceIte]
      exact hplwml
    rw [PrioritizationFeeLamports.serialize, PrioritizationFeeLamports.deserialize, htag,
      Option.some_orElse]
  | auto => decide
  | lamports l =>
    have hl : l < 18446744073709551616 := by
      have hl0 : l < 2 ^ 64 := h
      omega
    have hnum : deserializeU64Num (Json.num l) = some l := by
      rw [deserializeU64Num, if_pos (show (0 : Int) ≤ (l : Int) ∧
        (l : Int) < (18446744073709551616 : Int)
        from ⟨Int.natCast_nonneg l, by exact_mod_cast hl⟩), Int.toNat_natCast]
    rw [PrioritizationFeeLamports.serialize, PrioritizationFeeLamports.deserialize,
      show PrioritizationFeeLamports.deserializeTagged (Json.num l) = none from rfl,
      show autoHelper (Json.num l) = none from rfl, hnum]
    rfl
  | disabled => decide

/-- C3 (witness): the priority-level variant round-trips at a concrete
value. -/
theorem c3_prioritization_fee_serialization_roundtrip_witness :
    (PrioritizationFeeLamports.priorityLevelWithMaxLamports .high 5000 true).wf ∧
    PrioritizationFeeLamports.deserialize
      (PrioritizationFeeLamports.serialize
        (.priorityLevelWithMaxLamports .high 5000 true)) =
      some (.priorityLevelWithMaxLamports .high 5000 true) :=
  ⟨by show (5000 : Nat) < 2 ^ 64; decide,
    c3_prioritization_fee_serialization_roundtrip _ (by show (5000 : Nat) < 2 ^ 64; decide)⟩

/-- C4: the decimal-string amount codec round-trips every u64 value and
the base64 blob codec round-trips every byte vector; both encoders are
total functions by construction. -/
theorem c4_amount_and_blob_codecs_roundtrip :
    (∀ x : Nat, x < 2 ^ 64 → parseU64String (natToDecimal x) = some x)
    ∧ ∀ bs : List Nat, (∀ b ∈ bs, b < 256) → base64Decode (base64Encode bs) = some bs :=
  ⟨parseU64String_natToDecimal, fun bs h => b64DecodeGroups_encode bs h⟩

/-- C4 (witness): both codecs round-trip at concrete values. -/
theorem c4_amount_and_blob_codecs_roundtrip_witness :
    parseU64String (natToDecimal 1234567) = some 1234567 ∧
    base64Decode (base64Encode [0, 255, 65, 7]) = some [0, 255, 65, 7] :=
  ⟨c4_amount_and_blob_codecs_roundtrip.1 1234567 (by decide),
    c4_amount_and_blob_codecs_roundtrip.2 [0, 255, 65, 7] (by decide)⟩

/-- C5 (counterexample): the derived deserializer does NOT compute the
spec's §4.2 precedence function: through serde's buffered-Content
untagged fallback, the `auto` helper also accepts the single-entry map
form of its unit variant, so the real decoder maps `{"auto": null}` to
`Auto`, while the §4.2 shape rules reject an object whose single key is
none of the three declared wrapper keys. -/
theorem c5_counterexample_unit_variant_map_form :
    PrioritizationFeeLamports.deserialize (Json.obj [("auto", Json.null)]) =
      some PrioritizationFeeLamports.auto ∧
    specPrecedenceDecode (Json.obj [("auto", Json.null)]) = none :=
  ⟨rfl, rfl⟩

/-- C5 (amended): the derived deserializer of `PrioritizationFeeLamports`
(serde: tagged variants first, then the untagged tail in declaration
order) agrees with the spec's §4.2 precedence order — (1) sentinel
string, (2) bare scalar, (3) single-key object in declaration order,
first match wins — on every JSON value except the two single-entry map
forms of the helper-decoded unit variants: `{"auto": null}` decodes to
`Auto` and `{"disabled": null}` to `Disabled`, where the §4.2 rules
reject both. -/
theorem c5_fee_decoder_matches_spec_precedence_off_unit_maps :
    (∀ j, j ≠ Json.obj [("auto", Json.null)] → j ≠ Json.obj [("disabled", Json.null)] →
      PrioritizationFeeLamports.deserialize j = specPrecedenceDecode j)
    ∧ PrioritizationFeeLamports.deserialize (Json.obj [("auto", Json.null)]) =
        some PrioritizationFeeLamports.auto
    ∧ PrioritizationFeeLamports.deserialize (Json.obj [("disabled", Json.null)]) =
        some PrioritizationFeeLamports.disabled := by
  refine ⟨?_, rfl, rfl⟩
  intro j hA hD
  cases j with
  | str s =>
    by_cases h1 : s = "auto" <;> by_cases h2 : s = "disabled" <;>
      simp [PrioritizationFeeLamports.deserialize, PrioritizationFeeLamports.deserializeTagged,
        specPrecedenceDecode, autoHelper, disabledHelper, deserializeU64Num, h1, h2]
  | num n =>
    simp only [PrioritizationFeeLamports.deserialize, PrioritizationFeeLamports.deserializeTagged,
      specPrecedenceDecode, autoHelper, disabledHelper, deserializeU64Num]
    by_cases hc : 0 ≤ n ∧ n < (18446744073709551616 : Int)
    · rw [if_pos hc, if_pos hc]; rfl
    · rw [if_neg hc, if_neg hc]; rfl
  | bool b => rfl
  | null => rfl
  | arr es => rfl
  | obj fields =>
    have hauto : autoHelper (Json.obj fields) = none := by
      rcases fields with _ | ⟨⟨k, v⟩, rest⟩
      · rfl
      · rcases rest with _ | ⟨q, rest'⟩
        · cases v with
          | null =>
            have hk : ¬(k = "auto") := fun hk => hA (by rw [hk])
            show (if k = "auto" then some () else none) = none
            exact if_neg hk
          | str s => rfl
          | num n => rfl
          | bool b => rfl
          | arr es => rfl
          | obj f => rfl
        · cases v <;> rfl
    have hdis : disabledHelper (Json.obj fields) = none := by
      rcases fields with _ | ⟨⟨k, v⟩, rest⟩
      · rfl
      · rcases rest with _ | ⟨q, rest'⟩
        · cases v with
          | null =>
            have hk : ¬(k = "disabled") := fun hk => hD (by rw [hk])
            show (if k = "disabled" then some () else none) = none
            exact if_neg hk
          | str s => rfl
          | num n => rfl
          | bool b => rfl
          | arr es => rfl
          | obj f => rfl
        · cases v <;> rfl
    rcases htag : PrioritizationFeeLamports.deserializeTagged (Json.obj fields) with _ | v <;>
      simp [PrioritizationFeeLamports.deserialize, specPrecedenceDecode, hauto, hdis,
        deserializeU64Num, htag]

/-- C5 (witness): the restricted agreement, instantiated at the sentinel
string "auto" and at a bare number, both of which are not the exceptional
unit-variant map forms. -/
theorem c5_fee_decoder_matches_spec_precedence_off_unit_maps_witness :
    PrioritizationFeeLamports.deserialize (Json.str "auto") =
      specPrecedenceDecode (Json.str "auto") ∧
    PrioritizationFeeLamports.deserialize (Json.num 777) =
      specPrecedenceDecode (Json.num 777) :=
  ⟨c5_fee_decoder_matches_spec_precedence_off_unit_maps.1 (Json.str "auto")
      (fun h => Json.noConfusion h) (fun h => Json.noConfusion h),
    c5_fee_decoder_matches_spec_precedence_off_unit_maps.1 (Json.num 777)
      (fun h => Json.noConfusion h) (fun h => Json.noConfusion h)⟩

/-- C6 (counterexample): the body
`{"swapTransaction":"QQ==","lastValidBlockHeight":100}` does NOT decode
as the jupiter-swap-api-client's `SwapResponse`: that struct also
requires `prioritizationFeeLamports` and `computeUnitLimit`. -/
theorem c6_counterexample_client_swap_response_rejects_minimal_body :
    SwapResponse.deserialize
      (Json.obj [("swapTransaction", Json.str "QQ=="),
        ("lastValidBlockHeight", Json.num 100)]) = none := by
  rfl

/-- C6 (amended): the body decodes as the jupiter-swap-api crate's
`SwapResponse` to the single byte 0x41 and block height 100; for the
client crate's `SwapResponse` the same body is rejected (see the
counterexample). -/
theorem c6_api_swap_response_decodes_minimal_body :
    ApiSwapResponse.deserialize
      (Json.obj [("swapTransaction", Json.str "QQ=="),
        ("lastValidBlockHeight", Json.num 100)]) =
      some ⟨[0x41], 100⟩ := by
  rfl


/-- C7 (counterexample): a declared `QuoteRequest` field IS omitted from
the outgoing request: `routing_constraints` (like `compute_unit_score`
and `token_category_based_intermediate_tokens`) is dropped by
`From<QuoteRequest> for InternalQuoteRequest` and never reaches the
query string, even when set. -/
theorem c7_counterexample_routing_constraints_omitted :
    "routingConstraints" ∉
      quoteQueryKeys { QuoteRequest.default with routing_constraints := some "x" } := by
  decide

set_option maxHeartbeats 4000000 in
/-- C7 (amended): the serialized quote query contains every
`InternalQuoteRequest` field in its wire encoding — the three
always-present base58/decimal fields plus `slippageBps` and
`computeAutoSlippage`, and each optional field whenever it is set —
plus every entry of the free-form `quote_args` extras; but the three
`QuoteRequest` fields not forwarded to `InternalQuoteRequest`
(`compute_unit_score`, `routing_constraints`,
`token_category_based_intermediate_tokens`) never appear (stated with
no extras, so no extra entry can shadow their keys). -/
theorem c7_quote_query_field_coverage (r : QuoteRequest) :
    ("inputMint" ∈ quoteQueryKeys r ∧ "outputMint" ∈ quoteQueryKeys r ∧
      "amount" ∈ quoteQueryKeys r ∧ "slippageBps" ∈ quoteQueryKeys r ∧
      "computeAutoSlippage" ∈ quoteQueryKeys r)
    ∧ (r.swap_mode.isSome → "swapMode" ∈ quoteQueryKeys r)
    ∧ (r.auto_slippage.isSome → "autoSlippage" ∈ quoteQueryKeys r)
    ∧ (r.max_auto_slippage_bps.isSome → "maxAutoSlippageBps" ∈ quoteQueryKeys r)
    ∧ (r.auto_slippage_collision_usd_value.isSome →
        "autoSlippageCollisionUsdValue" ∈ quoteQueryKeys r)
    ∧ (r.minimize_slippage.isSome → "minimizeSlippage" ∈ quoteQueryKeys r)
    ∧ (r.platform_fee_bps.isSome → "platformFeeBps" ∈ quoteQueryKeys r)
    ∧ (r.dexes.isSome → "dexes" ∈ quoteQueryKeys r)
    ∧ (r.excluded_dexes.isSome → "excludedDexes" ∈ quoteQueryKeys r)
    ∧ (r.only_direct_routes.isSome → "onlyDirectRoutes" ∈ quoteQueryKeys r)
    ∧ (r.as_legacy_transaction.isSome → "asLegacyTransaction" ∈ quoteQueryKeys r)
    ∧ (r.restrict_intermediate_tokens.isSome →
        "restrictIntermediateTokens" ∈ quoteQueryKeys r)
    ∧ (r.max_accounts.isSome → "maxAccounts" ∈ quoteQueryKeys r)
    ∧ (r.quote_type.isSome → "quoteType" ∈ quoteQueryKeys r)
    ∧ (r.prefer_liquid_dexes.isSome → "preferLiquidDexes" ∈ quoteQueryKeys r)
    ∧ (∀ kv ∈ r.quote_args.getD [], kv.1 ∈ quoteQueryKeys r)
    ∧ (r.quote_args = none →
        "computeUnitScore" ∉ quoteQueryKeys r ∧
        "routingConstraints" ∉ quoteQueryKeys r ∧
        "tokenCategoryBasedIntermediateTokens" ∉ quoteQueryKeys r) := by
  refine ⟨⟨?_, ?_, ?_, ?_, ?_⟩, ?_, ?_, ?_, ?_, ?_, ?_, ?_, ?_, ?_, ?_, ?_, ?_, ?_, ?_,
    ?_, ?_⟩
  · simp [quoteQueryKeys, quoteQueryPairs, InternalQuoteRequest.queryPairs,
      InternalQuoteRequest.fromQuoteRequest]
  · simp [quoteQueryKeys, quoteQueryPairs, InternalQuoteRequest.queryPairs,
      InternalQuoteRequest.fromQuoteRequest]
  · simp [quoteQueryKeys, quoteQueryPairs, InternalQuoteRequest.queryPairs,
      InternalQuoteRequest.fromQuoteRequest]
  · simp [quoteQueryKeys, quoteQueryPairs, InternalQuoteRequest.queryPairs,
      InternalQuoteRequest.fromQuoteRequest]
  · simp [quoteQueryKeys, quoteQueryPairs, InternalQuoteRequest.queryPairs,
      InternalQuoteRequest.fromQuoteRequest]
  · intro h
    obtain ⟨v, hv⟩ := Option.isSome_iff_exists.mp h
    simp [quoteQueryKeys, quoteQueryPairs, InternalQuoteRequest.queryPairs,
      InternalQuoteRequest.fromQuoteRequest, hv, optEntry]
  · intro h
    obtain ⟨v, hv⟩ := Option.isSome_iff_exists.mp h
    simp [quoteQueryKeys, quoteQueryPairs, InternalQuoteRequest.queryPairs,
      InternalQuoteRequest.fromQuoteRequest, hv, optEntry]
  · intro h
    obtain ⟨v, hv⟩ := Option.isSome_iff_exists.mp h
    simp [quoteQueryKeys, quoteQueryPairs, InternalQuoteRequest.queryPairs,
      InternalQuoteRequest.fromQuoteRequest, hv, optEntry]
  · intro h
    obtain ⟨v, hv⟩ := Option.isSome_iff_exists.mp h
    simp [quoteQueryKeys, quoteQueryPairs, InternalQuoteRequest.queryPairs,
      InternalQuoteRequest.fromQuoteRequest, hv, optEntry]
  · intro h
    obtain ⟨v, hv⟩ := Option.isSome_iff_exists.mp h
    simp [quoteQueryKeys, quoteQueryPairs, InternalQuoteRequest.queryPairs,
      InternalQuoteRequest.fromQuoteRequest, hv, optEntry]
  · intro h
    obtain ⟨v, hv⟩ := Option.isSome_iff_exists.mp h
    simp [quoteQueryKeys, quoteQueryPairs, InternalQuoteRequest.queryPairs,
      InternalQuoteRequest.fromQuoteRequest, hv, optEntry]
  · intro h
    obtain ⟨v, hv⟩ := Option.isSome_iff_exists.mp h
    simp [quoteQueryKeys, quoteQueryPairs, InternalQuoteRequest.queryPairs,
      InternalQuoteRequest.fromQuoteRequest, hv, optEntry]
  · intro h
    obtain ⟨v, hv⟩ := Option.isSome_iff_exists.mp h
    simp [quoteQueryKeys, quoteQueryPairs, InternalQuoteRequest.queryPairs,
      InternalQuoteRequest.fromQuoteRequest, hv, optEntry]
  · intro h
    obtain ⟨v, hv⟩ := Option.isSome_iff_exists.mp h
    simp [quoteQueryKeys, quoteQueryPairs, InternalQuoteRequest.queryPairs,
      InternalQuoteRequest.fromQuoteRequest, hv, optEntry]
  · intro h
    obtain ⟨v, hv⟩ := Option.isSome_iff_exists.mp h
    simp [quoteQueryKeys, quoteQueryPairs, InternalQuoteRequest.queryPairs,
      InternalQuoteRequest.fromQuoteRequest, hv, optEntry]
  · intro h
    obtain ⟨v, hv⟩ := Option.isSome_iff_exists.mp h
    simp [quoteQueryKeys, quoteQueryPairs, InternalQuoteRequest.queryPairs,
      InternalQuoteRequest.fromQuoteRequest, hv, optEntry]
  · intro h
    obtain ⟨v, hv⟩ := Option.isSome_iff_exists.mp h
    simp [quoteQueryKeys, quoteQueryPairs, InternalQuoteRequest.queryPairs,
      InternalQuoteRequest.fromQuoteRequest, hv, optEntry]
  · intro h
    obtain ⟨v, hv⟩ := Option.isSome_iff_exists.mp h
    simp [quoteQueryKeys, quoteQueryPairs, InternalQuoteRequest.queryPairs,
      InternalQuoteRequest.fromQuoteRequest, hv, optEntry]
  · intro h
    obtain ⟨v, hv⟩ := Option.isSome_iff_exists.mp h
    simp [quoteQueryKeys, quoteQueryPairs, InternalQuoteRequest.queryPairs,
      InternalQuoteRequest.fromQuoteRequest, hv, optEntry]
  · intro kv hkv
    have hm : kv ∈ (InternalQuoteRequest.fromQuoteRequest r).queryPairs ++
        r.quote_args.getD [] := List.mem_append_right _ hkv
    show kv.1 ∈ (quoteQueryPairs r).map Prod.fst
    exact List.mem_map_of_mem Prod.fst hm
  · intro hq
    refine ⟨?_, ?_, ?_⟩ <;>
      simp [quoteQueryKeys, quoteQueryPairs, InternalQuoteRequest.queryPairs,
        InternalQuoteRequest.fromQuoteRequest, hq, pair_mem_optEntry]

/-- C7 (witness): on a concrete request with `swapMode` set and one
free-form extra, the always-present key, the optional key and the extra
key all appear; on the default request the dropped `computeUnitScore`
key does not. -/
theorem c7_quote_query_field_coverage_witness :
    ("inputMint" ∈ quoteQueryKeys { QuoteRequest.default with
        swap_mode := some SwapMode.exactIn, quote_args := some [("algoKey", "algoVal")] })
    ∧ ("swapMode" ∈ quoteQueryKeys { QuoteRequest.default with
        swap_mode := some SwapMode.exactIn, quote_args := some [("algoKey", "algoVal")] })
    ∧ ("algoKey" ∈ quoteQueryKeys { QuoteRequest.default with
        swap_mode := some SwapMode.exactIn, quote_args := some [("algoKey", "algoVal")] })
    ∧ "computeUnitScore" ∉ quoteQueryKeys QuoteRequest.default :=
  ⟨(c7_quote_query_field_coverage _).1.1,
    (c7_quote_query_field_coverage _).2.1 (by decide),
    (c7_quote_query_field_coverage { QuoteRequest.default with
        swap_mode := some SwapMode.exactIn
        quote_args := some [("algoKey", "algoVal")]
      }).2.2.2.2.2.2.2.2.2.2.2.2.2.2.2.1 ("algoKey", "algoVal") (by decide),
    ((c7_quote_query_field_coverage QuoteRequest.default).2.2.2.2.2.2.2.2.2.2.2.2.2.2.2.2
      rfl).1⟩

/-- C8 (counterexample): the claim's example defaults are wrong for
`TransactionConfig::default()`: SOL auto-wrap is indeed on, but shared
accounts are NOT enabled by default — `use_shared_accounts` defaults to
`None` (optimized internally), not `Some(true)`. -/
theorem c8_counterexample_use_shared_accounts_unset :
    ¬(TransactionConfig.default.wrap_and_unwrap_sol = true ∧
      TransactionConfig.default.use_shared_accounts = some true) := by
  simp [TransactionConfig.default]

/-- C8 (amended): the explicit, named default-configuration constant
`TransactionConfig::default()` sets `wrap_and_unwrap_sol` to true and
leaves every override field unset — `fee_account`,
`destination_token_account`, `prioritization_fee_lamports` and
`dynamic_slippage` are all `None` — but shared accounts are NOT enabled
by default: `use_shared_accounts` is `None` (optimized internally), not
`Some(true)`. -/
theorem c8_default_transaction_config_values :
    TransactionConfig.default.wrap_and_unwrap_sol = true ∧
    TransactionConfig.default.fee_account = none ∧
    TransactionConfig.default.destination_token_account = none ∧
    TransactionConfig.default.prioritization_fee_lamports = none ∧
    TransactionConfig.default.dynamic_slippage = none ∧
    TransactionConfig.default.use_shared_accounts = none :=
  ⟨rfl, rfl, rfl, rfl, rfl, rfl⟩

/-- C9: the retry policy applies only to the quote operation and behaves
as specified: (1) with an always-failing call and at least one allowed
attempt, `retry_quote` performs exactly `maxAttempts` attempts, waits
the fixed delay between consecutive attempts (total
`(maxAttempts - 1) * delay`), and returns the last attempt's error
verbatim; (2) a first-attempt success short-circuits after one attempt
with no delay; (3) the plain quote, swap and swap-instructions
operations each issue exactly one transport call; (4) swap and
swap-instructions depend only on the first exchange of the transport
trace — they never retry into later attempts. -/
theorem c9_retry_policy_and_single_shot_swap :
    (∀ (α : Type) (call : Nat → Except ClientError α) (maxAttempts delay : Nat),
      1 ≤ maxAttempts → (∀ i, ∃ e, call i = .error e) →
      retry_quote call maxAttempts delay =
        (call (maxAttempts - 1), maxAttempts, (maxAttempts - 1) * delay))
    ∧ (∀ (α : Type) (call : Nat → Except ClientError α) (maxAttempts delay : Nat) (v : α),
      1 ≤ maxAttempts → call 0 = .ok v →
      retry_quote call maxAttempts delay = (.ok v, 1, 0))
    ∧ (∀ (α β : Type) (deser : String → Option α) (conv : α → β)
        (t : Nat → TransportResult),
      (quoteCall deser t).2 = 1 ∧ (swapCall deser t).2 = 1 ∧
        (swapInstructionsCall deser conv t).2 = 1)
    ∧ (∀ (α β : Type) (deser : String → Option α) (conv : α → β)
        (t u : Nat → TransportResult), t 0 = u 0 →
      swapCall deser t = swapCall deser u ∧
        swapInstructionsCall deser conv t = swapInstructionsCall deser conv u) := by
  refine ⟨?_, ?_, ?_, ?_⟩
  · intro α call maxAttempts delay hmax hfail
    rw [retry_quote, retryQuoteFrom_all_fail call delay hfail maxAttempts hmax 0]
    simp
  · intro α call maxAttempts delay v hmax h
    cases maxAttempts with
    | zero => exact absurd hmax (by omega)
    | succ m =>
      cases m with
      | zero => simp [retry_quote, retryQuoteFrom, h]
      | succ m' => simp [retry_quote, retryQuoteFrom, h]
  · intro α β deser conv t
    exact ⟨rfl, rfl, rfl⟩
  · intro α β deser conv t u h
    constructor
    · rw [swapCall, swapCall, h]
    · rw [swapInstructionsCall, swapInstructionsCall, h]

/-- C9 (witness): a transport that always fails exhausts 3 attempts with
total delay 14 = 2 * 7 and returns the error verbatim; an immediately
succeeding call returns after 1 attempt with no delay; a swap call on
the failing transport still counts exactly one call. -/
theorem c9_retry_policy_and_single_shot_swap_witness :
    retry_quote
        (fun _ => (Except.error (ClientError.deserializationError "boom") :
          Except ClientError Nat)) 3 7 =
      (Except.error (ClientError.deserializationError "boom"), 3, 14)
    ∧ retry_quote (fun _ => (Except.ok 42 : Except ClientError Nat)) 3 7 =
      (Except.ok 42, 1, 0)
    ∧ (swapCall (fun _ => (none : Option Nat))
        (fun _ => TransportResult.transportFailed "down")).2 = 1 := by
  refine ⟨?_, ?_, ?_⟩
  · have h := c9_retry_policy_and_single_shot_swap.1 Nat
      (fun _ => .error (.deserializationError "boom")) 3 7 (by omega)
      (fun i => ⟨_, rfl⟩)
    simpa using h
  · exact c9_retry_policy_and_single_shot_swap.2.1 Nat
      (fun _ => .ok 42) 3 7 42 (by omega) rfl
  · exact (c9_retry_policy_and_single_shot_swap.2.2.1 Nat Nat
      (fun _ => none) id (fun _ => TransportResult.transportFailed "down")).2.1

/-- C10: for every QuoteResponse JSON object whose core fields decode,
absence of `contextSlot` and/or `timeTaken` never causes a decode
error: the missing service-metadata field defaults to 0 (respectively
0.0, the integer 0 in this embedding's f64 model). -/
theorem c10_quote_response_metadata_defaults (fields : List (String × Json))
    (core : QuoteResponseCore)
    (hcore : QuoteResponseCore.deserializeFields fields = some core) :
    (jsonLookup fields "contextSlot" = none → jsonLookup fields "timeTaken" = none →
      QuoteResponse.deserialize (Json.obj fields) = some ⟨core, 0, 0⟩)
    ∧ (∀ t x, jsonLookup fields "contextSlot" = none →
        jsonLookup fields "timeTaken" = some t → deserializeF64 t = some x →
        QuoteResponse.deserialize (Json.obj fields) = some ⟨core, 0, x⟩)
    ∧ (∀ t x, jsonLookup fields "contextSlot" = some t → deserializeU64Num t = some x →
        jsonLookup fields "timeTaken" = none →
        QuoteResponse.deserialize (Json.obj fields) = some ⟨core, x, 0⟩) := by
  refine ⟨fun h1 h2 => ?_, fun t x h1 h2 h3 => ?_, fun t x h1 h2 h3 => ?_⟩
  · rw [QuoteResponse.deserialize, hcore]
    simp only [option_some_bind, deserializeDefaultField, h1, h2]
  · rw [QuoteResponse.deserialize, hcore]
    simp only [option_some_bind, deserializeDefaultField, h1, h2, h3]
  · rw [QuoteResponse.deserialize, hcore]
    simp only [option_some_bind, deserializeDefaultField, h1, h2, h3]

/-- C10 (witness): a minimal quote body with neither `contextSlot` nor
`timeTaken` decodes with both metadata fields defaulted to 0. -/
theorem c10_quote_response_metadata_defaults_witness :
    QuoteResponse.deserialize
      (Json.obj [("inputMint", Json.str "11111111111111111111111111111111"),
        ("inAmount", Json.str "1000000"),
        ("outputMint", Json.str "11111111111111111111111111111111"),
        ("outAmount", Json.str "50000000000"),
        ("otherAmountThreshold", Json.str "0"),
        ("swapMode", Json.str "ExactIn"),
        ("slippageBps", Json.num 50),
        ("priceImpactPct", Json.str "0"),
        ("routePlan", Json.arr [])]) =
      some ⟨⟨0, 1000000, 0, 50000000000, 0, SwapMode.exactIn, 50, none, none, none,
        ⟨false, 0, 0⟩, []⟩, 0, 0⟩ :=
  (c10_quote_response_metadata_defaults
    [("inputMint", Json.str "11111111111111111111111111111111"),
      ("inAmount", Json.str "1000000"),
      ("outputMint", Json.str "11111111111111111111111111111111"),
      ("outAmount", Json.str "50000000000"),
      ("otherAmountThreshold", Json.str "0"),
      ("swapMode", Json.str "ExactIn"),
      ("slippageBps", Json.num 50),
      ("priceImpactPct", Json.str "0"),
      ("routePlan", Json.arr [])]
    ⟨0, 1000000, 0, 50000000000, 0, SwapMode.exactIn, 50, none, none, none,
      ⟨false, 0, 0⟩, []⟩ (by rfl)).1 rfl rfl
